import Mathlib

set_option maxRecDepth 20000

/-!
Shallow embedding of the Holterlib ISHNE Holter ECG codec.

The repository contains two parallel implementations:
* the package `ishneholterlib` (`header.py`, `helpers.py`, `holter.py`,
  `constants.py`), embedded below with its source names (`load_header`,
  `get_header_bytes`, `lead_resolutions_nv`, ...);
* the older single-file module `ISHNEHolterLib.py`, embedded with a
  `holter_` prefix (`holter_load_header`, `holter_is_valid`,
  `holter_load_data`, ...).

Files are modelled as lists of bytes (`List Nat`, each entry < 256 in
practice; out-of-range reads return 0 only where the Python code could
never perform them).  Python exceptions are modelled with `Except PyErr`.
Exact rational arithmetic (`ℚ`) stands in for Python float arithmetic;
every claim settled below depends only on the algebraic form of the
expressions, not on rounding of binary floating point.
-/

/-- Python exception kinds raised by the code paths modelled here. -/
inductive PyErr : Type where
  | fileNotFoundError : PyErr
  | valueError : PyErr
  | indexError : PyErr
  | attributeError : PyErr
  | assertionError : PyErr
  deriving DecidableEq, Repr

/-- `True` iff the `Except` value is an `ok` result. -/
def pyOk {α : Type} : Except PyErr α → Bool
  | Except.ok _ => true
  | Except.error _ => false

/-! ## Byte-level file readers (`helpers.py` `get_val` / `get_short_int` / `get_long_int`) -/

/-- Byte `i` of the file.  All reads performed by the sources are within
the 522-byte bound they check first, so the default 0 is never consulted
on the paths proved about. -/
def byteAt (f : List Nat) (i : Nat) : Nat := f.getD i 0

/-- The `n` raw bytes starting at offset `p`. -/
def bytesAt (f : List Nat) (p n : Nat) : List Nat := (f.drop p).take n

/-- numpy fixed-width byte strings (dtype `'aN'`) strip trailing null bytes. -/
def stripTrailingNulls (l : List Nat) : List Nat :=
  (l.reverse.dropWhile (fun b => b = 0)).reverse

/-- `get_val(filename, p, 'aN')`: an `N`-byte numpy bytes scalar
(trailing nulls stripped). -/
def npBytesA (f : List Nat) (p n : Nat) : List Nat := stripTrailingNulls (bytesAt f p n)

/-- `get_val(filename, p, 'aN').split(b'\x00')[0]`: the prefix before the
first null byte (used by `ishneholterlib/header.py` for string fields). -/
def cString (f : List Nat) (p n : Nat) : List Nat :=
  (bytesAt f p n).takeWhile (fun b => b ≠ 0)

/-- Reinterpret an unsigned 16-bit value as signed (numpy `int16`). -/
def toSigned16 (v : Nat) : ℤ := if v < 32768 then (v : ℤ) else (v : ℤ) - 65536

/-- Reinterpret an unsigned 32-bit value as signed (numpy `int32`). -/
def toSigned32 (v : Nat) : ℤ :=
  if v < 2147483648 then (v : ℤ) else (v : ℤ) - 4294967296

/-- Little-endian unsigned 16-bit read (`get_val(..., np.uint16)`). -/
def u16at (f : List Nat) (p : Nat) : Nat := byteAt f p + 256 * byteAt f (p + 1)

/-- `get_short_int`: little-endian signed 16-bit read. -/
def int16at (f : List Nat) (p : Nat) : ℤ := toSigned16 (u16at f p)

/-- Little-endian unsigned 32-bit read. -/
def u32at (f : List Nat) (p : Nat) : Nat :=
  byteAt f p + 256 * byteAt f (p + 1) + 65536 * byteAt f (p + 2)
    + 16777216 * byteAt f (p + 3)

/-- `get_long_int`: little-endian signed 32-bit read. -/
def int32at (f : List Nat) (p : Nat) : ℤ := toSigned32 (u32at f p)

/-! ## Python `datetime.date` / `datetime.time` construction (`helpers.py` `get_datetime`) -/

/-- Gregorian leap-year rule used by Python's `datetime`. -/
def isLeapYear (y : ℤ) : Bool :=
  decide (y % 4 = 0 ∧ (y % 100 ≠ 0 ∨ y % 400 = 0))

/-- Length of month `m` in year `y` (Python `calendar` rule). -/
def daysInMonth (y m : ℤ) : ℤ :=
  if m = 1 ∨ m = 3 ∨ m = 5 ∨ m = 7 ∨ m = 8 ∨ m = 10 ∨ m = 12 then 31
  else if m = 4 ∨ m = 6 ∨ m = 9 ∨ m = 11 then 30
  else if isLeapYear y then 29
  else 28

/-- Whether `datetime.date(y, m, d)` constructs without raising `ValueError`
(`MINYEAR = 1`, `MAXYEAR = 9999`). -/
def isValidDate (y m d : ℤ) : Bool :=
  decide (1 ≤ y ∧ y ≤ 9999 ∧ 1 ≤ m ∧ m ≤ 12 ∧ 1 ≤ d ∧ d ≤ daysInMonth y m)

/-- Whether `datetime.time(h, mi, s)` constructs without raising `ValueError`. -/
def isValidTime (h mi s : ℤ) : Bool :=
  decide (0 ≤ h ∧ h ≤ 23 ∧ 0 ≤ mi ∧ mi ≤ 59 ∧ 0 ≤ s ∧ s ≤ 59)

/-- A Python `datetime.date`. -/
structure PyDate : Type where
  year : ℤ
  month : ℤ
  day : ℤ
  deriving DecidableEq, Repr

/-- A Python `datetime.time`. -/
structure PyTime : Type where
  hour : ℤ
  minute : ℤ
  second : ℤ
  deriving DecidableEq, Repr

/-- `get_datetime(filename, offset)` with `time=False`, applied to the three
consecutive 16-bit values `a, b, c` it reads: builds `datetime.date(c, b, a)`
and returns `None` when construction raises `ValueError`. -/
def get_datetime_date (a b c : ℤ) : Option PyDate :=
  if isValidDate c b a then some ⟨c, b, a⟩ else none

/-- `get_datetime(filename, offset, time=True)` applied to the three values
`a, b, c`: builds `datetime.time(a, b, c)`, `None` on `ValueError`. -/
def get_datetime_time (a b c : ℤ) : Option PyTime :=
  if isValidTime a b c then some ⟨a, b, c⟩ else none

/-! ## `ishneholterlib/header.py`: the `Header` class -/

/-- The attributes `Header.load_header` stores on the instance.
`var_block_size`, `var_block_offset`, `ecg_block_offset`, `nleads` and `sr`
are read into *local* variables by `load_header` (lines 54-57, 68, 75) and
are deliberately not fields here. -/
structure Header : Type where
  magic_number : List Nat
  checksum : Nat
  ecg_size : ℤ
  file_version : ℤ
  first_name : List Nat
  last_name : List Nat
  id : List Nat
  sex : ℤ
  race : ℤ
  birth_date : Option PyDate
  record_date : Option PyDate
  file_date : Option PyDate
  start_time : Option PyTime
  lead_spec : List ℤ
  lead_quality : List ℤ
  ampl_res : List ℤ
  pm : ℤ
  recorder_type : List Nat
  proprietary : List Nat
  copyright : List Nat
  reserved : List Nat
  var_block : List Nat
  deriving DecidableEq, Repr

/-- `Header.load_header` (`ishneholterlib/header.py`, lines 46-87).
Raises `FileNotFoundError` for files below 522 bytes, `ValueError` when the
stored offsets are inconsistent (line 80-82), and `IndexError` when
`var_block_size` promises more trailing bytes than the file holds
(`np.fromfile` then yields no complete item and `val[0]` fails).
The `header_field_defaults['var_block']` default is the empty string. -/
def load_header (f : List Nat) : Except PyErr Header :=
  if f.length < 522 then Except.error PyErr.fileNotFoundError
  -- locals: var_block_size = int32at f 10, var_block_offset = int32at f 18,
  -- ecg_block_offset = int32at f 22 (inlined below)
  else if int32at f 18 ≠ 522 ∨ int32at f 22 ≠ 522 + int32at f 10 then
    Except.error PyErr.valueError
  else if 0 < int32at f 10 ∧ (f.length : ℤ) < 522 + int32at f 10 then
    Except.error PyErr.indexError
  else
      Except.ok
        { magic_number := npBytesA f 0 8
          checksum := u16at f 8
          ecg_size := int32at f 14
          file_version := int16at f 26
          first_name := cString f 28 40
          last_name := cString f 68 40
          id := cString f 108 20
          sex := int16at f 128
          race := int16at f 130
          birth_date := get_datetime_date (int16at f 132) (int16at f 134) (int16at f 136)
          record_date := get_datetime_date (int16at f 138) (int16at f 140) (int16at f 142)
          file_date := get_datetime_date (int16at f 144) (int16at f 146) (int16at f 148)
          start_time := get_datetime_time (int16at f 150) (int16at f 152) (int16at f 154)
          lead_spec := (List.range 12).map (fun i => int16at f (158 + i * 2))
          lead_quality := (List.range 12).map (fun i => int16at f (182 + i * 2))
          ampl_res := (List.range 12).map (fun i => int16at f (206 + i * 2))
          pm := int16at f 230
          recorder_type := cString f 232 40
          proprietary := cString f 274 80
          copyright := cString f 354 80
          reserved := cString f 434 88
          var_block :=
            if 0 < int32at f 10 then cString f 522 (int32at f 10).toNat else [] }

/-! ## Leads and the header encoder (`ishneholterlib/header.py` `get_header_bytes`,
`ishneholterlib/helpers.py` `lead_resolutions_nv`) -/

/-- A `Lead` object as consumed by the package code.  Only the attributes the
modelled functions actually read are included: `sr` (sample rate), the first
entry of the `time` array (`l.time[0]`, the start timestamp), the millivolt
sample list `ampl`, and the optional measured resolution `original_umV`
(absent or unusable values are modelled as `none` / `some 0`, matching the
bare `except:` in `lead_resolutions_nv` which catches the `TypeError` /
`AttributeError` / `ZeroDivisionError` those cases raise). -/
structure Lead : Type where
  sr : ℤ
  time0 : ℤ
  ampl : List ℚ
  original_umV : Option ℚ
  deriving DecidableEq, Repr

/-- Python `max(a :: rest)` over a non-empty list. -/
def pyMaxList (a : ℚ) (rest : List ℚ) : ℚ := rest.foldl max a

/-- Python `min(a :: rest)` over a non-empty list. -/
def pyMinList (a : ℚ) (rest : List ℚ) : ℚ := rest.foldl min a

/-- Python `int()` on a rational: truncation toward zero. -/
def pyInt (q : ℚ) : ℤ := if q < 0 then ⌈q⌉ else ⌊q⌋

/-- The fallback branch of `lead_resolutions_nv` (`helpers.py` lines 112-114):
`res = math.ceil(1e6 * (max(l.ampl) - min(l.ampl)) / 2**16)`.
`max` of an empty sequence raises `ValueError`, uncaught there. -/
def fallback_resolution (l : Lead) : Except PyErr ℤ :=
  match l.ampl with
  | [] => Except.error PyErr.valueError
  | a :: rest =>
      Except.ok ⌈(1000000 * (pyMaxList a rest - pyMinList a rest) : ℚ) / 65536⌉

/-- One iteration of `lead_resolutions_nv`'s loop (`helpers.py` lines 104-115):
`try: res = int(1e6/l.original_umV) except: <fallback>`.  The bare `except:`
catches the `TypeError` from a missing/`None` `original_umV` and the
`ZeroDivisionError` from `original_umV == 0`. -/
def lead_resolution_nv (l : Lead) : Except PyErr ℤ :=
  match l.original_umV with
  | some u => if u = 0 then fallback_resolution l else Except.ok (pyInt (1000000 / u))
  | none => fallback_resolution l

/-- `lead_resolutions_nv(leads)` (`helpers.py` lines 102-116): the per-lead
resolutions in nanovolts, accumulated in order; the first uncaught exception
aborts the loop. -/
def lead_resolutions_nv : List Lead → Except PyErr (List ℤ)
  | [] => Except.ok []
  | l :: ls =>
      match lead_resolution_nv l with
      | Except.error e => Except.error e
      | Except.ok r =>
          match lead_resolutions_nv ls with
          | Except.error e => Except.error e
          | Except.ok rs => Except.ok (r :: rs)

/-- `Header.get_header_bytes(self, leads)` (`ishneholterlib/header.py`,
lines 89-175).  Control flow of the source:
* lines 104-107 raise `ValueError` unless the leads' sample rates, start
  times (`l.time[0]`) and sample counts each form a one-element set —
  which also rejects an empty lead list (`len(set([])) == 0 != 1`);
* lines 110-147 assemble a local `bytearray` (sizes, offsets, strings,
  dates, `len(leads)`); it never escapes the function because
* line 150 evaluates `l.name_TODO_TO_KEY` on the first lead — no `Lead`
  object has that attribute (it is an unfinished-TODO placeholder), so an
  `AttributeError` is raised and no byte string is ever returned.  (The
  subsequent loops would likewise fail on the undefined `self.lead`.)
The discarded partial `bytearray` is therefore not modelled; only the
function's observable behaviour (which exception escapes) is.
The `[]` branch of the match is unreachable: the line-104 guard already
rejected the empty list (it would otherwise be line 112's `IndexError`
from `leads[0]`). -/
def get_header_bytes (h : Header) (leads : List Lead) : Except PyErr (List Nat) :=
  if (leads.map Lead.sr).dedup.length ≠ 1 ∨
     (leads.map Lead.time0).dedup.length ≠ 1 ∨
     (leads.map (fun l => l.ampl.length)).dedup.length ≠ 1 then
    Except.error PyErr.valueError
  else
    match leads with
    | [] => Except.error PyErr.indexError
    | _ :: _ =>
        let _ := h.var_block.length
        Except.error PyErr.attributeError

/-! ## `ISHNEHolterLib.py`: the single-file `Holter` class -/

/-- The attributes `Holter.load_header` (`ISHNEHolterLib.py`, lines 67-105)
stores on the instance.  Unlike the package version, this class keeps the
sizes, offsets, `nleads` and `sr` as instance attributes, and its string
fields are raw numpy byte scalars (no `.split(b'\x00')`). -/
structure HolterState : Type where
  magic_number : List Nat
  checksum : Nat
  var_block_size : ℤ
  ecg_size : ℤ
  var_block_offset : ℤ
  ecg_block_offset : ℤ
  file_version : ℤ
  first_name : List Nat
  last_name : List Nat
  id : List Nat
  sex : ℤ
  race : ℤ
  birth_date : Option PyDate
  record_date : Option PyDate
  file_date : Option PyDate
  start_time : Option PyTime
  nleads : ℤ
  lead_spec : List ℤ
  lead_quality : List ℤ
  ampl_res : List ℤ
  pm : ℤ
  recorder_type : List Nat
  sr : ℤ
  proprietary : List Nat
  copyright : List Nat
  reserved : List Nat
  var_block : Option (List Nat)
  deriving DecidableEq, Repr

/-- The magic bytes `b'ISHNE1.0'`. -/
def ishneMagic : List Nat := [73, 83, 72, 78, 69, 49, 46, 48]

/-- `Holter.load_header` (`ISHNEHolterLib.py`, lines 67-105).  The size guard
is an `assert` (`AssertionError`); there is no magic-number or offset check
in this function.  As in `load_header` above, a `var_block_size` pointing
past the end of the file makes `np.fromfile(...)[0]` raise `IndexError`. -/
def holter_load_header (f : List Nat) : Except PyErr HolterState :=
  if f.length < 522 then Except.error PyErr.assertionError
  else if 0 < int32at f 10 ∧ (f.length : ℤ) < 522 + int32at f 10 then
    Except.error PyErr.indexError
  else
      Except.ok
        { magic_number := npBytesA f 0 8
          checksum := u16at f 8
          var_block_size := int32at f 10
          ecg_size := int32at f 14
          var_block_offset := int32at f 18
          ecg_block_offset := int32at f 22
          file_version := int16at f 26
          first_name := npBytesA f 28 40
          last_name := npBytesA f 68 40
          id := npBytesA f 108 20
          sex := int16at f 128
          race := int16at f 130
          birth_date := get_datetime_date (int16at f 132) (int16at f 134) (int16at f 136)
          record_date := get_datetime_date (int16at f 138) (int16at f 140) (int16at f 142)
          file_date := get_datetime_date (int16at f 144) (int16at f 146) (int16at f 148)
          start_time := get_datetime_time (int16at f 150) (int16at f 152) (int16at f 154)
          nleads := int16at f 156
          lead_spec := (List.range 12).map (fun i => int16at f (158 + i * 2))
          lead_quality := (List.range 12).map (fun i => int16at f (182 + i * 2))
          ampl_res := (List.range 12).map (fun i => int16at f (206 + i * 2))
          pm := int16at f 230
          recorder_type := npBytesA f 232 40
          sr := int16at f 272
          proprietary := npBytesA f 274 80
          copyright := npBytesA f 354 80
          reserved := npBytesA f 434 88
          var_block :=
            if 0 < int32at f 10 then some (npBytesA f 522 (int32at f 10).toNat)
            else none }

/-- One byte step of CRC16-CCITT with polynomial 0x1021, MSB first — the
computation performed by `PyCRC.CRCCCITT(version='FFFF')` via its
precomputed table. -/
def crc16_update (crc b : Nat) : Nat :=
  (List.range 8).foldl
    (fun c _ =>
      if c &&& 32768 ≠ 0 then ((c <<< 1) ^^^ 4129) &&& 65535
      else (c <<< 1) &&& 65535)
    (crc ^^^ (b <<< 8))

/-- `CRCCCITT(version='FFFF').calculate(bytes)`: initial register 0xFFFF. -/
def crc16_ccitt (bs : List Nat) : Nat := bs.foldl crc16_update 65535

/-- `Holter.compute_checksum` (`ISHNEHolterLib.py`, lines 125-136): the CRC
over the `ecg_block_offset - 10` bytes starting at file offset 10. -/
def holter_compute_checksum (st : HolterState) (f : List Nat) : Nat :=
  crc16_ccitt ((f.drop 10).take (st.ecg_block_offset - 10).toNat)

/-- `Holter.is_valid` (`ISHNEHolterLib.py`, lines 138-160), with its four
early-return checks in source order: magic number, variable-block offset,
file size under either `ecg_size` convention, and (optionally) checksum. -/
def holter_is_valid (st : HolterState) (f : List Nat) (verify_checksum : Bool) : Bool :=
  if st.magic_number ≠ ishneMagic then false
  else if st.var_block_offset ≠ 522 then false
  else if (f.length : ℤ) ≠ 522 + st.var_block_size + 2 * st.ecg_size ∧
          (f.length : ℤ) ≠ 522 + st.var_block_size + 2 * st.ecg_size
            + 2 * st.ecg_size * (st.nleads - 1) then false
  else if verify_checksum = true ∧ st.checksum ≠ holter_compute_checksum st f then false
  else true

/-- `Holter.__init__` (`ISHNEHolterLib.py`, lines 59-65): loads the header,
then — instead of raising — merely `print`s a warning when `is_valid()` is
false.  The returned flag records whether that warning was printed. -/
def holter_init (f : List Nat) : Except PyErr (HolterState × Bool) :=
  match holter_load_header f with
  | Except.error e => Except.error e
  | Except.ok st => Except.ok (st, ! holter_is_valid st f true)

/-- Whether `Holter.__init__` printed its "file appears to be invalid or
corrupt" warning. -/
def holterWarned (r : Except PyErr (HolterState × Bool)) : Bool :=
  match r with
  | Except.ok (_, w) => w
  | Except.error _ => false

/-- The millivolt conversion applied to one raw sample by
`Holter.load_data` (`ISHNEHolterLib.py`, line 123):
`self.data[i] /= 1e6/self.ampl_res[i]`, i.e. `raw / (1e6 / res)`. -/
def sample_mV (raw res : ℤ) : ℚ := (raw : ℚ) / (1000000 / (res : ℚ))

/-- `np.fromfile(f, dtype=np.int16)`: consecutive little-endian signed
16-bit values; a trailing odd byte yields no further item. -/
def int16sFrom : List Nat → List ℤ
  | b0 :: b1 :: rest => toSigned16 (b0 + 256 * b1) :: int16sFrom rest
  | _ => []

/-- `Holter.load_data` (`ISHNEHolterLib.py`, lines 107-123).  Note the seek
target on line 114 is `self.var_block_offset`, not `self.ecg_block_offset`.
The sample count is truncated down to a multiple of `nleads` and the block
is reshaped in Fortran (column-major) order with `nleads` rows, so row `i`,
column `j` is raw sample `j * nleads + i`; each row is then divided by
`1e6/ampl_res[i]`.  (The module's own `write_file` docstring states that
only `write_file` requires Python 3, so the Python 2 semantics of the `/`
in the slice index — integer division — are modelled.) -/
def holter_load_data (st : HolterState) (f : List Nat) : List (List ℚ) :=
  let data := int16sFrom (f.drop st.var_block_offset.toNat)
  let nleads := st.nleads.toNat
  let cols := data.length / nleads
  (List.range nleads).map (fun i =>
    (List.range cols).map (fun j =>
      sample_mV (data.getD (j * nleads + i) 0) (st.ampl_res.getD i 0)))

/-! ## Shared concrete objects for witnesses and counterexamples -/

/-- A `Header` with the `constants.header_field_defaults` values.  (A Python
default header leaves `magic_number`, `checksum`, `ecg_size` and the three
lead arrays unset; `get_header_bytes` never reads them before failing, so
zero / empty stand-ins are used here.) -/
def defaultHeader : Header :=
  { magic_number := [], checksum := 0, ecg_size := 0, file_version := -9,
    first_name := [], last_name := [], id := [], sex := 0, race := 0,
    birth_date := none, record_date := none, file_date := none,
    start_time := none, lead_spec := [], lead_quality := [], ampl_res := [],
    pm := -9, recorder_type := [], proprietary := [], copyright := [],
    reserved := [], var_block := [] }

/-- A one-sample lead at 200 Hz with no measured resolution. -/
def leadOneSample : Lead := { sr := 200, time0 := 0, ampl := [0], original_umV := none }

/-- A two-sample lead at 200 Hz with no measured resolution. -/
def leadTwoSamples : Lead :=
  { sr := 200, time0 := 0, ampl := [0, 0], original_umV := none }

/-! ## Claim C2 — sample conversion to millivolts -/

/-- Claim C2, counterexample: at raw sample 1 with resolution 500 nV > 0 the
code's conversion (`raw / (1e6/res)`) yields 1/2000 mV, not the claimed
`raw * (1e6/res)` = 2000 mV. -/
theorem sample_mV_claim_counterexample :
    (0 : ℤ) < 500 ∧ sample_mV 1 500 ≠ (1 : ℚ) * (1000000 / 500) := by
  refine ⟨by norm_num, ?_⟩
  norm_num [sample_mV]

/-- Claim C2 (amended): `Holter.load_data` converts a raw int16 sample with
per-lead resolution `res` (nanovolts) to millivolts as
`raw / (1e6 / res)`, i.e. `raw * res / 1e6` — not `raw * (1e6 / res)`. -/
theorem sample_mV_eq_mul_res_div (raw res : ℤ) :
    sample_mV raw res = (raw : ℚ) * (res : ℚ) / 1000000 := by
  unfold sample_mV
  rw [div_div_eq_mul_div]

/-! ## Claims C1 / C10 — the package header encoder never returns -/

/-- Claim C1: `Header.get_header_bytes` cannot encode at all — for every
header and every lead list it raises (`ValueError` from the consistency
guard, otherwise `AttributeError` at the unimplemented
`l.name_TODO_TO_KEY`), so `decode(encode(h, leads))` never restores
anything: `encode` never produces bytes. -/
theorem get_header_bytes_always_errors (h : Header) (leads : List Lead) :
    ∃ e, get_header_bytes h leads = Except.error e := by
  unfold get_header_bytes
  split_ifs
  · exact ⟨_, rfl⟩
  · cases leads with
    | nil => exact ⟨_, rfl⟩
    | cons l ls => exact ⟨_, rfl⟩

/-- Claim C10: evaluating `Header.get_header_bytes` on a default header and
one consistent lead: it raises `AttributeError` (line 150,
`l.name_TODO_TO_KEY`); no 512-byte fixed region is ever produced. -/
theorem get_header_bytes_single_lead_attribute_error :
    get_header_bytes defaultHeader [leadOneSample] = Except.error PyErr.attributeError := by
  rfl

/-! ## Claim C7 — inconsistent leads are rejected before any bytes are produced -/

/-- If a list contains two distinct elements, its dedup does not have
exactly one element. -/
theorem dedup_length_ne_one_of_two {α : Type} [DecidableEq α] {xs : List α} {a b : α}
    (ha : a ∈ xs) (hb : b ∈ xs) (hab : a ≠ b) : xs.dedup.length ≠ 1 := by
  intro h1
  obtain ⟨x, hx⟩ := List.length_eq_one.mp h1
  have ha2 : a ∈ xs.dedup := List.mem_dedup.mpr ha
  have hb2 : b ∈ xs.dedup := List.mem_dedup.mpr hb
  rw [hx] at ha2 hb2
  simp only [List.mem_singleton] at ha2 hb2
  exact hab (ha2.trans hb2.symm)

/-- Claim C7: whenever two leads differ in sample rate, start time
(`l.time[0]`) or sample count, `Header.get_header_bytes` raises
`ValueError` at its line-104 guard, before assembling or returning any
bytes.  In particular leads of differing lengths are always rejected. -/
theorem get_header_bytes_inconsistent_leads_error (h : Header) (leads : List Lead)
    (hex : ∃ l1 ∈ leads, ∃ l2 ∈ leads,
        l1.sr ≠ l2.sr ∨ l1.time0 ≠ l2.time0 ∨ l1.ampl.length ≠ l2.ampl.length) :
    get_header_bytes h leads = Except.error PyErr.valueError := by
  obtain ⟨l1, h1, l2, h2, hne⟩ := hex
  unfold get_header_bytes
  rw [if_pos]
  rcases hne with hne | hne | hne
  · exact Or.inl
      (dedup_length_ne_one_of_two (List.mem_map_of_mem _ h1) (List.mem_map_of_mem _ h2) hne)
  · exact Or.inr (Or.inl
      (dedup_length_ne_one_of_two (List.mem_map_of_mem _ h1) (List.mem_map_of_mem _ h2) hne))
  · exact Or.inr (Or.inr
      (dedup_length_ne_one_of_two (List.mem_map_of_mem _ h1) (List.mem_map_of_mem _ h2) hne))

/-- Claim C7, witness: two leads of lengths 1 and 2 are rejected with
`ValueError`. -/
theorem get_header_bytes_inconsistent_leads_error_witness :
    get_header_bytes defaultHeader [leadOneSample, leadTwoSamples] =
      Except.error PyErr.valueError :=
  get_header_bytes_inconsistent_leads_error defaultHeader [leadOneSample, leadTwoSamples]
    ⟨leadOneSample, by simp, leadTwoSamples, by simp,
      Or.inr (Or.inr (by decide))⟩

/-! ## Claim C6 — offset consistency check in `load_header` -/

/-- Claim C6: for any file of at least 522 bytes, `Header.load_header`
raises its consistency `ValueError` ("File header contains an invalid
value.") exactly when the stored variable-block offset differs from 522 or
the stored ECG-block offset differs from 522 plus the stored variable-block
size; when both equalities hold no such error is raised. -/
theorem load_header_value_error_iff (f : List Nat) (hlen : 522 ≤ f.length) :
    load_header f = Except.error PyErr.valueError ↔
      (int32at f 18 ≠ 522 ∨ int32at f 22 ≠ 522 + int32at f 10) := by
  unfold load_header
  rw [if_neg (by omega)]
  split_ifs with h1 h2
  · simp [h1]
  · simp [h1]
  · simp [h1]

/-- Claim C6, witness: an all-zero 522-byte file stores variable-block
offset 0 ≠ 522 and is rejected with the consistency `ValueError`. -/
theorem load_header_value_error_iff_witness :
    load_header (List.replicate 522 0) = Except.error PyErr.valueError :=
  (load_header_value_error_iff (List.replicate 522 0) (by simp)).mpr
    (Or.inl (by decide))

/-! ## Claim C8 — invalid date/time triples decode to `None`, not an error -/

/-- Claim C8: whenever `Header.load_header` succeeds, a birth-date triple
that does not form a valid calendar date (including the all-zero triple,
since year 0 is invalid) yields `birth_date = None`, and a start-time
triple that does not form a valid time-of-day yields `start_time = None`;
in neither case does decoding raise. -/
theorem load_header_invalid_datetime_none (f : List Nat) (h : Header)
    (hok : load_header f = Except.ok h) :
    (isValidDate (int16at f 136) (int16at f 134) (int16at f 132) = false →
        h.birth_date = none) ∧
    (isValidTime (int16at f 150) (int16at f 152) (int16at f 154) = false →
        h.start_time = none) := by
  unfold load_header at hok
  split_ifs at hok
  all_goals rw [Except.ok.injEq] at hok
  all_goals subst hok
  all_goals
    exact ⟨fun hv => by simp [get_datetime_date, hv],
           fun hv => by simp [get_datetime_time, hv]⟩

/-- A 522-byte file with consistent offsets, an all-zero birth-date triple
and start-time triple (99, 0, 0). -/
def fileC8 : List Nat :=
  List.replicate 18 0 ++ [10, 2, 0, 0] ++ [10, 2, 0, 0] ++ List.replicate 124 0
    ++ [99] ++ List.replicate 371 0

/-- The header `load_header` produces from `fileC8`. -/
def hC8 : Header :=
  { magic_number := [], checksum := 0, ecg_size := 0, file_version := 0,
    first_name := [], last_name := [], id := [], sex := 0, race := 0,
    birth_date := none, record_date := none, file_date := none,
    start_time := none,
    lead_spec := List.replicate 12 0, lead_quality := List.replicate 12 0,
    ampl_res := List.replicate 12 0, pm := 0, recorder_type := [],
    proprietary := [], copyright := [], reserved := [], var_block := [] }

/-- Claim C8, witness: decoding `fileC8` succeeds and maps its all-zero
birth-date triple and its invalid (hour 99) start-time triple to `None`. -/
theorem load_header_invalid_datetime_none_witness :
    hC8.birth_date = none ∧ hC8.start_time = none := by
  have hld : load_header fileC8 = Except.ok hC8 := by rfl
  exact ⟨(load_header_invalid_datetime_none fileC8 hC8 hld).1 (by decide),
         (load_header_invalid_datetime_none fileC8 hC8 hld).2 (by decide)⟩

/-! ## Claim C9 — fallback amplitude-resolution estimate -/

/-- For a lead with no usable `original_umV` and non-empty samples,
`lead_resolutions_nv`'s loop body computes the fallback estimate
`ceil(1e6 * (max - min) / 2**16)`. -/
theorem lead_resolution_nv_none (l : Lead) (humv : l.original_umV = none)
    (a : ℚ) (rest : List ℚ) (hampl : l.ampl = a :: rest) :
    lead_resolution_nv l =
      Except.ok ⌈(1000000 * (pyMaxList a rest - pyMinList a rest) : ℚ) / 65536⌉ := by
  unfold lead_resolution_nv fallback_resolution
  rw [humv, hampl]

/-- Claim C9: in the list of resolutions computed by `lead_resolutions_nv`,
every lead lacking an explicitly recorded resolution (`original_umV`
absent) and having at least one sample gets the estimate
`ceil(1e6 * (max(mV) - min(mV)) / 65536)` nanovolts. -/
theorem lead_resolutions_nv_fallback :
    ∀ (leads : List Lead) (res : List ℤ), lead_resolutions_nv leads = Except.ok res →
      ∀ (i : Nat) (l : Lead), leads[i]? = some l → l.original_umV = none →
        ∀ (a : ℚ) (rest : List ℚ), l.ampl = a :: rest →
          res[i]? =
            some ⌈(1000000 * (pyMaxList a rest - pyMinList a rest) : ℚ) / 65536⌉ := by
  intro leads
  induction leads with
  | nil =>
    intro res hres i l hl
    simp at hl
  | cons x xs ih =>
    intro res hres i l hl humv a rest hampl
    unfold lead_resolutions_nv at hres
    cases hx : lead_resolution_nv x with
    | error e => rw [hx] at hres; simp at hres
    | ok r =>
      rw [hx] at hres
      cases hxs : lead_resolutions_nv xs with
      | error e => rw [hxs] at hres; simp at hres
      | ok rs =>
        rw [hxs] at hres
        simp only [Except.ok.injEq] at hres
        subst hres
        cases i with
        | zero =>
          rw [List.getElem?_cons_zero, Option.some.injEq] at hl
          subst hl
          have h2 := (lead_resolution_nv_none x humv a rest hampl).symm.trans hx
          simp only [Except.ok.injEq] at h2
          rw [List.getElem?_cons_zero, h2]
        | succ j =>
          rw [List.getElem?_cons_succ] at hl
          rw [List.getElem?_cons_succ]
          exact ih rs hxs j l hl humv a rest hampl

/-- A lead with samples 0 mV and 65536 mV and no recorded resolution. -/
def leadC9 : Lead :=
  { sr := 200, time0 := 0, ampl := [0, 65536], original_umV := none }

/-- Claim C9, witness: for a lead with samples spanning 65536 mV the
estimated resolution is `ceil(1e6 * 65536 / 65536)` = 1000000 nV. -/
theorem lead_resolutions_nv_fallback_witness :
    (([1000000] : List ℤ))[0]? =
      some ⌈(1000000 * (pyMaxList 0 [65536] - pyMinList 0 [65536]) : ℚ) / 65536⌉ :=
  lead_resolutions_nv_fallback [leadC9] [1000000]
    (by norm_num [lead_resolutions_nv, lead_resolution_nv, fallback_resolution,
          leadC9, pyMaxList, pyMinList])
    0 leadC9 (by rfl) (by rfl) 0 [65536] (by rfl)

/-! ## Claim C3 — the two accepted `ecg_size` conventions in `is_valid` -/

/-- Claim C3: assuming the magic number, variable-block offset and checksum
checks pass, `Holter.is_valid` accepts exactly the files whose size is
`522 + var_block_size + 2*ecg_size` (`ecg_size` as total samples) or
`522 + var_block_size + 2*ecg_size*nleads` (`ecg_size` as per-lead
samples), and rejects files matching neither. -/
theorem is_valid_size_iff (st : HolterState) (f : List Nat)
    (hm : st.magic_number = ishneMagic) (ho : st.var_block_offset = 522)
    (hc : st.checksum = holter_compute_checksum st f) :
    holter_is_valid st f true = true ↔
      ((f.length : ℤ) = 522 + st.var_block_size + 2 * st.ecg_size ∨
       (f.length : ℤ) = 522 + st.var_block_size + 2 * st.ecg_size * st.nleads) := by
  unfold holter_is_valid
  rw [if_neg (by simp [hm]), if_neg (by simp [ho])]
  have harith : 522 + st.var_block_size + 2 * st.ecg_size
      + 2 * st.ecg_size * (st.nleads - 1)
      = 522 + st.var_block_size + 2 * st.ecg_size * st.nleads := by ring
  rw [harith]
  split_ifs with h1 h2
  · simp only [Bool.false_eq_true, false_iff]
    push_neg
    exact ⟨h1.1, h1.2⟩
  · exact absurd hc h2.2
  · simp only [true_iff]
    by_cases he : (f.length : ℤ) = 522 + st.var_block_size + 2 * st.ecg_size
    · exact Or.inl he
    · push_neg at h1
      exact Or.inr (h1 he)

/-- A 522-byte file for the size check: `522 = 522 + 0 + 2*0`. -/
def fileC3w : List Nat := List.replicate 522 0

/-- A state satisfying `is_valid_size_iff`'s hypotheses for `fileC3w`:
magic and offset fields in order, `var_block_size = 0`, `ecg_size = 0`.
`ecg_block_offset = 10` makes the checksum range empty, so the stored
checksum is CRC16-CCITT's initial register 0xFFFF (the `compute(b"")`
test vector), keeping the witness evaluation small. -/
def stC3w : HolterState :=
  { magic_number := ishneMagic, checksum := 65535, var_block_size := 0,
    ecg_size := 0, var_block_offset := 522, ecg_block_offset := 10,
    file_version := 0, first_name := [], last_name := [], id := [],
    sex := 0, race := 0, birth_date := none, record_date := none,
    file_date := none, start_time := none, nleads := 0,
    lead_spec := List.replicate 12 0, lead_quality := List.replicate 12 0,
    ampl_res := List.replicate 12 0, pm := 0, recorder_type := [], sr := 0,
    proprietary := [], copyright := [], reserved := [], var_block := none }

/-- Claim C3, witness: a 522-byte file with `var_block_size = 0` and
`ecg_size = 0` satisfies the total-samples size formula and is accepted. -/
theorem is_valid_size_iff_witness : holter_is_valid stC3w fileC3w true = true :=
  (is_valid_size_iff stC3w fileC3w rfl rfl (by decide)).mpr (Or.inl (by decide))

/-! ## Claim C4 — wrong magic number: warning printed, nothing raised -/

/-- A 522-byte file whose magic reads `XSHNE1.0`. -/
def fileC4 : List Nat := [88, 83, 72, 78, 69, 49, 46, 48] ++ List.replicate 514 0

/-- Claim C4, counterexample: loading a file whose first 8 bytes are not
`ISHNE1.0` does *not* raise — `Holter.__init__` completes normally
(`pyOk`), reporting the bad magic only through its printed warning. -/
theorem holter_init_wrong_magic_counterexample :
    pyOk (holter_init fileC4) = true ∧ holterWarned (holter_init fileC4) = true := by
  constructor <;> rfl

/-- Claim C4 (amended): for every file of at least 522 bytes whose first 8
bytes are not the magic `ISHNE1.0` (and whose variable-block size does not
point past the end of the file), `Holter.__init__` raises nothing:
construction completes and the failure is reported only as a printed
warning (`is_valid()` returning false). -/
theorem holter_init_wrong_magic_warns (f : List Nat) (hlen : 522 ≤ f.length)
    (hmagic : npBytesA f 0 8 ≠ ishneMagic)
    (hvar : ¬(0 < int32at f 10 ∧ (f.length : ℤ) < 522 + int32at f 10)) :
    pyOk (holter_init f) = true ∧ holterWarned (holter_init f) = true := by
  unfold holter_init holter_load_header
  rw [if_neg (by omega), if_neg hvar]
  refine ⟨rfl, ?_⟩
  unfold holterWarned
  simp [holter_is_valid, hmagic]

/-- Claim C4, witness: the amended statement applied to `fileC4`. -/
theorem holter_init_wrong_magic_warns_witness :
    pyOk (holter_init fileC4) = true ∧ holterWarned (holter_init fileC4) = true :=
  holter_init_wrong_magic_warns fileC4 (by decide) (by decide) (by decide)

/-! ## Claim C5 — `load_data` reads from the variable-block offset -/

/-- A `HolterState` for a file with a 4-byte variable block, two leads and
two samples per lead: `var_block_offset = 522`, `ecg_block_offset = 526`. -/
def stC5 : HolterState :=
  { magic_number := ishneMagic, checksum := 0, var_block_size := 4,
    ecg_size := 2, var_block_offset := 522, ecg_block_offset := 526,
    file_version := 0, first_name := [], last_name := [], id := [],
    sex := 0, race := 0, birth_date := none, record_date := none,
    file_date := none, start_time := none, nleads := 2,
    lead_spec := List.replicate 12 0, lead_quality := List.replicate 12 0,
    ampl_res := [1000, 2000] ++ List.replicate 10 0, pm := 0,
    recorder_type := [], sr := 200, proprietary := [], copyright := [],
    reserved := [], var_block := some [1, 2] }

/-- 522 header bytes, then the 4-byte variable block `[1,0,2,0]`, then the
ECG block holding int16 samples 100 and 101. -/
def fileC5 : List Nat := List.replicate 522 0 ++ [1, 0, 2, 0] ++ [100, 0, 101, 0]

/-- Claim C5: `Holter.load_data` seeks to `var_block_offset` (522), not to
the ECG-block offset (526): on `fileC5` the decoded leads begin with the
variable-block bytes reinterpreted as the int16 samples 1 and 2, and only
then contain the true ECG samples 100 and 101.  (The truncation to a
multiple of `nleads` and the column-major reshape behave as the claim
states; the read start does not.) -/
theorem holter_load_data_reads_var_block :
    stC5.var_block_offset = 522 ∧ stC5.ecg_block_offset = 526 ∧
    holter_load_data stC5 fileC5 =
      [[sample_mV 1 1000, sample_mV 100 1000],
       [sample_mV 2 2000, sample_mV 101 2000]] :=
  ⟨rfl, rfl, rfl⟩
